import Mathlib

/-!
Shallow embedding of the `system-curves` hydraulic calculator.

The repository computes a hydraulic system curve (total dynamic head as a
function of flow rate) for a series pipeline.  It contains two parallel
implementations of the domain:

* the *banded* variant: `src/models/PipeSection.ts` (elevation min/max bands,
  inlined TDH computation, imperial constants) aggregated by
  `src/models/System.ts` and `src/models/Pipeline.ts`;
* the *Bernoullis* variant: the `PipeSection` class of `src/unnamed/part_001`
  (single-valued elevations, getter/setter entity) evaluated through
  `src/models/Bernoullis.ts` with the strategy of `src/unnamed/part_000`
  (`SerghidesApproximation`).

Numbers are modelled as exact rationals.  The two genuinely transcendental
ingredients of the source — `math.pi` and `Math.log10` / `math.log10` — are
passed as explicit parameters (`pi : ℚ`, `log10 : ℚ → ℚ`) everywhere they
occur, so every definition stays executable and every claim is settled for
all values of those parameters (none of the verified claims depends on their
actual values).  JavaScript `throw` sites are modelled with `Except`; the
error *kinds* follow the taxonomy of the specification (the source raises
plain `Error` values distinguished only by message).
-/

/-- Error kinds of the specification's taxonomy, one per `throw` site family. -/
inductive Err where
  | validation
  | emptyPipeline
  | indexOutOfRange
  | unsupportedMethod
  | noMethod
deriving DecidableEq

/-- `ApproximationMethod` enum (`src/models/enums/ApproximationMethod`). -/
inductive ApproximationMethod where
  | SERGHIDE
  | COLEBROOK
deriving DecidableEq

namespace SerghidesApproximation

/-- `calculateTerm` of `src/unnamed/part_000` (`SerghidesApproximation`).
`prev` is `number | null`; the source guard `prev ? … : …` is JavaScript
truthiness, so both `null` and `0` select the `12 / reynoldsNum` branch. -/
def calculateTerm (log10 : ℚ → ℚ) (roughnessTerm reynoldsNum : ℚ)
    (prev : Option ℚ) : ℚ :=
  let reynoldsTerm :=
    match prev with
    | some p => if p = 0 then 12 / reynoldsNum else 2.51 * p / reynoldsNum
    | none => 12 / reynoldsNum
  let term := -2 * log10 (roughnessTerm + reynoldsTerm)
  term

/-- `SerghidesApproximation.calculateFrictionFactor` of `src/unnamed/part_000`:
laminar regime `Re < 2300` returns `64 / Re`, otherwise Serghide's closed-form
estimate built from three logarithmic terms. -/
def calculateFrictionFactor (log10 : ℚ → ℚ)
    (relativeRoughness reynoldsNum : ℚ) : ℚ :=
  if reynoldsNum < 2300 then 64 / reynoldsNum
  else
    let roughnessTerm := relativeRoughness / 3.7
    let a := calculateTerm log10 roughnessTerm reynoldsNum none
    let b := calculateTerm log10 roughnessTerm reynoldsNum (some a)
    let c := calculateTerm log10 roughnessTerm reynoldsNum (some b)
    (a - (b - a) ^ 2 / (c - 2 * b + a)) ^ (-2 : ℤ)

end SerghidesApproximation

/-- Constructor parameters of the banded `PipeSection`
(`src/models/PipeSection.ts`), in source order. -/
structure PipeSection where
  p1 : ℚ
  p2 : ℚ
  v1 : ℚ
  v2 : ℚ
  z1_min : ℚ
  z2_min : ℚ
  z1_max : ℚ
  z2_max : ℚ
  length : ℚ
  diameter : ℚ
  absoluteRoughness : ℚ
  kinematicViscOfFluid : ℚ
  targetFlowRate : ℚ
  appurtenanceKValues : List ℚ
deriving DecidableEq

namespace PipeSection

/-- Validation of the banded `PipeSection` constructor, checks in source
order; every `throw new Error(…)` there is a `ValidationError` kind. -/
def construct (s : PipeSection) : Except Err PipeSection :=
  if s.diameter ≤ 0 then .error .validation
  else if s.length ≤ 0 then .error .validation
  else if s.absoluteRoughness < 0 then .error .validation
  else if s.kinematicViscOfFluid ≤ 0 then .error .validation
  else if s.appurtenanceKValues = [] then .error .validation
  else if s.z2_max < s.z1_min ∨ s.z2_min < s.z1_max then .error .validation
  else .ok s

/-- Cached field `hydraulicArea = (math.pi * diameter²) / 4`. -/
def hydraulicArea (pi : ℚ) (s : PipeSection) : ℚ :=
  pi * s.diameter ^ 2 / 4

/-- Cached field `relativeRoughness = absoluteRoughness / diameter`. -/
def relativeRoughness (s : PipeSection) : ℚ :=
  s.absoluteRoughness / s.diameter

/-- Cached field `hasVelocityHead = (v2 !== v1)`. -/
def hasVelocityHead (s : PipeSection) : Bool :=
  decide (s.v2 ≠ s.v1)

/-- `generateFlowRange` of the banded `PipeSection`:
`step = targetFlowRate / 20`, samples `step * (i + 1)` for `i = 0 .. 19`. -/
def generateFlowRange (targetFlowRate : ℚ) : List ℚ :=
  let step := targetFlowRate / 20
  (List.range 20).map fun i : ℕ => step * ((i : ℚ) + 1)

/-- Reynolds number inside the banded `calculateFrictionFactor`:
`max((flowRate / hydraulicArea) * (diameter / kinematicViscOfFluid), 1e-6)`. -/
def reynoldsNumber (pi : ℚ) (s : PipeSection) (flowRate : ℚ) : ℚ :=
  max ((flowRate / hydraulicArea pi s) * (s.diameter / s.kinematicViscOfFluid))
    (1e-6 : ℚ)

/-- `calculateFrictionFactor` of the banded `PipeSection`: laminar `64 / Re`
below 2300, otherwise Serghide's estimate; its `calcTerm` guard
`prev ? (2.51 / Re) * prev : 12 / Re` is JavaScript truthiness (`0` falsy). -/
def calculateFrictionFactor (log10 : ℚ → ℚ) (pi : ℚ) (s : PipeSection)
    (flowRate : ℚ) : ℚ :=
  let re := reynoldsNumber pi s flowRate
  if re < 2300 then 64 / re
  else
    let roughnessTerm := relativeRoughness s / 3.7
    let a := -2 * log10 (roughnessTerm + 12 / re)
    let b := -2 * log10 (roughnessTerm +
      (if a = 0 then 12 / re else (2.51 / re) * a))
    let c := -2 * log10 (roughnessTerm +
      (if b = 0 then 12 / re else (2.51 / re) * b))
    (a - (b - a) ^ 2 / (c - 2 * b + a)) ^ (-2 : ℤ)

/-- `calculateMajorLosses` of the banded `PipeSection`:
`f * (length / diameter) * Q² / (2 * 32.17 * hydraulicArea²)`. -/
def calculateMajorLosses (log10 : ℚ → ℚ) (pi : ℚ) (s : PipeSection)
    (flowRate : ℚ) : ℚ :=
  let frictionFactor := calculateFrictionFactor log10 pi s flowRate
  frictionFactor * (s.length / s.diameter) * flowRate ^ 2 /
    (2 * 32.17 * (hydraulicArea pi s) ^ 2)

/-- `calculateMinorLosses` of the banded `PipeSection`:
`(ΣK) * Q² / (2 * 32.17 * hydraulicArea²)`. -/
def calculateMinorLosses (pi : ℚ) (s : PipeSection) (flowRate : ℚ) : ℚ :=
  let kSum := s.appurtenanceKValues.foldl (· + ·) 0
  kSum * flowRate ^ 2 / (2 * 32.17 * (hydraulicArea pi s) ^ 2)

/-- The `pressureHead` line of the banded `calculateTDH`:
`(p2 - p1) * 2.31`. -/
def pressureHead (s : PipeSection) : ℚ :=
  (s.p2 - s.p1) * 2.31

/-- The `velocityHead` line of the banded `calculateTDH`. -/
def velocityHead (pi : ℚ) (s : PipeSection) (adjustedFlowRate : ℚ) : ℚ :=
  if s.hasVelocityHead then
    adjustedFlowRate ^ 2 / (2 * 32.17 * (hydraulicArea pi s) ^ 2)
  else 0

/-- `calculateTDH` of the banded `PipeSection`: returns
`(staticHeadMax + totalLosses, staticHeadMin + totalLosses)` where
`totalLosses = major + minor + velocityHead + pressureHead` and the flow rate
is first clamped to `max(flowRate, 1e-6)`. -/
def calculateTDH (log10 : ℚ → ℚ) (pi : ℚ) (s : PipeSection)
    (flowRate : ℚ) : ℚ × ℚ :=
  let adjustedFlowRate := max flowRate (1e-6 : ℚ)
  let staticHeadMax := s.z2_max - s.z1_min
  let staticHeadMin := s.z2_min - s.z1_max
  let majorLosses := calculateMajorLosses log10 pi s adjustedFlowRate
  let minorLosses := calculateMinorLosses pi s adjustedFlowRate
  let totalLosses := majorLosses + minorLosses +
    velocityHead pi s adjustedFlowRate + pressureHead s
  (staticHeadMax + totalLosses, staticHeadMin + totalLosses)

/-- `execute` of the banded `PipeSection`: one `[maxTDH, minTDH, flowRate]`
row per generated flow-rate sample. -/
def execute (log10 : ℚ → ℚ) (pi : ℚ) (s : PipeSection) : List (ℚ × ℚ × ℚ) :=
  (generateFlowRange s.targetFlowRate).map fun flowRate =>
    let t := calculateTDH log10 pi s flowRate
    (t.1, t.2, flowRate)

end PipeSection

/-- Constructor parameters of the `PipeSection` class of `src/unnamed/part_001`
(the Bernoullis variant), in source order. -/
structure PipeSectionB where
  initialPressure : ℚ
  finalPressure : ℚ
  initialVelocity : ℚ
  finalVelocity : ℚ
  targetFlowRate : ℚ
  initialElevation : ℚ
  finalElevation : ℚ
  length : ℚ
  diameter : ℚ
  absoluteRoughness : ℚ
  kinematicViscosity : ℚ
  kValues : List ℚ
deriving DecidableEq

namespace PipeSectionB

/-- Validation of the `part_001` constructor, checks in source order.  Note
that it tests `diameter < 0` (strict), performs no check on `kValues`, and
has no elevation bands. -/
def construct (s : PipeSectionB) : Except Err PipeSectionB :=
  if s.diameter < 0 then .error .validation
  else if s.length ≤ 0 then .error .validation
  else if s.absoluteRoughness ≤ 0 then .error .validation
  else if s.kinematicViscosity ≤ 0 then .error .validation
  else .ok s

end PipeSectionB

namespace Bernoullis

/-- `Bernoullis.calculateStaticHead` (`src/models/Bernoullis.ts`). -/
def calculateStaticHead (ps : PipeSectionB) : ℚ :=
  ps.finalElevation - ps.initialElevation

/-- `Bernoullis.calculatePressureHead`: correction factor `2.31` overwritten
with `10.2` when not imperial. -/
def calculatePressureHead (isImperial : Bool) (ps : PipeSectionB) : ℚ :=
  let correctionFactor : ℚ := 2.31
  let correctionFactor := if !isImperial then 10.2 else correctionFactor
  (ps.finalPressure - ps.initialPressure) * correctionFactor

/-- `Bernoullis.calculateVelocityHead`: `(V₂ - V₁) / (2 * g)` with gravity
`32.17` overwritten with `9.81` when not imperial. -/
def calculateVelocityHead (isImperial : Bool) (ps : PipeSectionB) : ℚ :=
  let gravity : ℚ := 32.17
  let gravity := if !isImperial then 9.81 else gravity
  (ps.finalVelocity - ps.initialVelocity) / (2 * gravity)

/-- `Bernoullis.calculateReynoldsNumber`:
`velocity = Q / ((math.pi * D²) / 4)`, then
`max(velocity * D / kinematicViscosity, 1e-6)`. -/
def calculateReynoldsNumber (pi : ℚ) (ps : PipeSectionB) (flowRate : ℚ) : ℚ :=
  let velocity := flowRate / ((pi * ps.diameter ^ 2) / 4)
  max (velocity * ps.diameter / ps.kinematicViscosity) (1e-6 : ℚ)

/-- `Bernoullis.calculateMajorLosses`:
`(f * (length / diameter) * Q²) / ((2 * g * math.pi * D²) / 4)` — note the
denominator carries `math.pi * D² / 4` (the hydraulic area) to the *first*
power, not squared. -/
def calculateMajorLosses (log10 : ℚ → ℚ) (pi : ℚ) (isImperial : Bool)
    (ps : PipeSectionB) (flowRate relativeRoughness : ℚ) : ℚ :=
  let gravity : ℚ := 32.17
  let gravity := if !isImperial then 9.81 else gravity
  SerghidesApproximation.calculateFrictionFactor log10 relativeRoughness
      (calculateReynoldsNumber pi ps flowRate) *
    (ps.length / ps.diameter) * flowRate ^ 2 /
    ((2 * gravity * pi * ps.diameter ^ 2) / 4)

/-- `Bernoullis.calculateMinorLosses`:
`(ΣK * Q²) / ((2 * g * math.pi * D²) / 4)`, gravity defaulting to `9.81`
and overwritten with `32.17` when imperial. -/
def calculateMinorLosses (pi : ℚ) (ps : PipeSectionB)
    (flowRate : ℚ) (isImperial : Bool) : ℚ :=
  let gravity : ℚ := 9.81
  let gravity := if isImperial then 32.17 else gravity
  let sum := ps.kValues.foldl (· + ·) 0
  sum * flowRate ^ 2 / ((2 * gravity * pi * ps.diameter ^ 2) / 4)

/-- `Bernoullis.calculateTDH`: the five-way head decomposition. -/
def calculateTDH (log10 : ℚ → ℚ) (pi : ℚ) (isImperial : Bool)
    (ps : PipeSectionB) (flowRate relativeRoughness : ℚ) : ℚ :=
  calculateStaticHead ps + calculatePressureHead isImperial ps +
    calculateVelocityHead isImperial ps +
    calculateMajorLosses log10 pi isImperial ps flowRate relativeRoughness +
    calculateMinorLosses pi ps flowRate isImperial

/-- `Bernoullis.execute`: maps each flow rate to `[tdh, flowRate]`, computing
the relative roughness once from the section. -/
def execute (log10 : ℚ → ℚ) (pi : ℚ) (ps : PipeSectionB)
    (flowRates : List ℚ) (isImperial : Bool) : List (ℚ × ℚ) :=
  let relativeRoughness := ps.absoluteRoughness / ps.diameter
  flowRates.map fun flowRate =>
    (calculateTDH log10 pi isImperial ps flowRate relativeRoughness, flowRate)

end Bernoullis

namespace System

/-- The body of the aggregation loop of `System.calcTDH`
(`src/models/System.ts`) for one section: add the section's `maxTDH` and
`minTDH` at index `i` to the accumulators and overwrite the carried flow
rate (so the last section wins). -/
def sectionStep (log10 : ℚ → ℚ) (pi : ℚ) (i : ℕ) (acc : ℚ × ℚ × ℚ)
    (sec : PipeSection) : ℚ × ℚ × ℚ :=
  let row := (PipeSection.execute log10 pi sec).getD i (0, 0, 0)
  (acc.1 + row.1, acc.2.1 + row.2.1, row.2.2)

/-- One iteration of the aggregation loop of `System.calcTDH`: at flow-rate
index `i`, fold the section list with `sectionStep`, starting from zero
accumulators. -/
def calcRow (log10 : ℚ → ℚ) (pi : ℚ) (sections : List PipeSection)
    (i : ℕ) : ℚ × ℚ × ℚ :=
  sections.foldl (sectionStep log10 pi i) (0, 0, 0)

/-- `System.calcTDH`: throws when no sections exist, otherwise builds one
summed `[cumulativeMaxTDH, cumulativeMinTDH, flowRate]` row per index of the
first section's curve (`flowRateCount = pipeSections[0].execute().length`). -/
def calcTDH (log10 : ℚ → ℚ) (pi : ℚ) (sections : List PipeSection) :
    Except Err (List (ℚ × ℚ × ℚ)) :=
  match sections with
  | [] => .error .emptyPipeline
  | s0 :: _ =>
    let flowRateCount := (PipeSection.execute log10 pi s0).length
    .ok ((List.range flowRateCount).map (calcRow log10 pi sections))

/-- One iteration of the `System.calcTDH` loop in state-threaded form: the
result accumulator gains the row computed from the *current* object state,
and the state itself (which the body only reads) is passed through. -/
def curveLoopStep (log10 : ℚ → ℚ) (pi : ℚ)
    (acc : List (ℚ × ℚ × ℚ) × List PipeSection) (i : ℕ) :
    List (ℚ × ℚ × ℚ) × List PipeSection :=
  (acc.1 ++ [calcRow log10 pi acc.2 i], acc.2)

/-- State-threaded form of `System.calcTDH`: the object state (the owned
`pipeSections` list, the only mutable field of the class) is passed into
every loop iteration and returned at the end, mirroring that the method body
reads `this.pipeSections` but contains no assignment to it. -/
def calcTDHOp (log10 : ℚ → ℚ) (pi : ℚ) (st : List PipeSection) :
    Except Err (List (ℚ × ℚ × ℚ)) × List PipeSection :=
  match st with
  | [] => (.error .emptyPipeline, st)
  | s0 :: _ =>
    let flowRateCount := (PipeSection.execute log10 pi s0).length
    let result := (List.range flowRateCount).foldl
      (curveLoopStep log10 pi) ([], st)
    (.ok result.1, result.2)

/-- `System.removePipeSection`, state-threaded: the index guard throws
`IndexOutOfRangeError` before `splice` runs. -/
def removePipeSection (index : ℤ) (st : List PipeSection) :
    Except Err Unit × List PipeSection :=
  if index < 0 ∨ (st.length : ℤ) ≤ index then (.error .indexOutOfRange, st)
  else (.ok (), st.eraseIdx index.toNat)

/-- `System.modifyPipeSection`, state-threaded: the index guard throws
`IndexOutOfRangeError` first; then `new PipeSection(...newParams)` may itself
throw a `ValidationError`, in which case the list is not written. -/
def modifyPipeSection (index : ℤ) (newParams : PipeSection)
    (st : List PipeSection) : Except Err Unit × List PipeSection :=
  if index < 0 ∨ (st.length : ℤ) ≤ index then (.error .indexOutOfRange, st)
  else
    match PipeSection.construct newParams with
    | .error e => (.error e, st)
    | .ok s => (.ok (), st.set index.toNat s)

/-- `System.addPipeSection`, state-threaded. -/
def addPipeSection (newParams : PipeSection) (st : List PipeSection) :
    Except Err Unit × List PipeSection :=
  match PipeSection.construct newParams with
  | .error e => (.error e, st)
  | .ok s => (.ok (), st ++ [s])

end System

namespace Pipeline

/-- `generateFlowRange` of `src/models/Pipeline.ts`:
`step = targetFlowRate / 10`, samples `step * i` for `i = 0 .. 19`. -/
def generateFlowRange (targetFlowRate : ℚ) : List ℚ :=
  let step := targetFlowRate / 10
  (List.range 20).map fun i : ℕ => step * (i : ℚ)

/-- The inner section loop of the `Pipeline.execute` aggregation at one
flow-rate index: accumulate `cumulativeTDH` and overwrite the carried value
with the current section's second tuple component. -/
def rowAt (log10 : ℚ → ℚ) (pi : ℚ) (sections : List PipeSection)
    (i : ℕ) : ℚ × ℚ :=
  sections.foldl (fun (acc : ℚ × ℚ) sec =>
    let row := (PipeSection.execute log10 pi sec).getD i (0, 0, 0)
    (acc.1 + row.1, row.2.1)) (0, 0)

/-- `Pipeline.execute` (`src/models/Pipeline.ts`): empty-pipeline guard
first, then method dispatch (`COLEBROOK` throws, `SERGHIDE` resolves a
strategy), then the aggregation loop with `flowRateCount = 20`.  The section
type it actually imports is the banded `PipeSection`, whose `execute` takes
no parameters, so under JavaScript call semantics the `(flowRates, method,
isImperial)` arguments are ignored and the destructuring
`[tdh, currentFlowRate]` of a `[maxTDH, minTDH, flowRate]` row reads
`maxTDH` as the head value and `minTDH` as the carried flow rate. -/
def execute (log10 : ℚ → ℚ) (pi : ℚ) (sections : List PipeSection)
    (targetFlowRate : ℚ) (approximationMethod : ApproximationMethod)
    (_isImperial : Bool) : Except Err (List (ℚ × ℚ)) :=
  match sections with
  | [] => .error .emptyPipeline
  | _ :: _ =>
    match approximationMethod with
    | .COLEBROOK => .error .unsupportedMethod
    | .SERGHIDE =>
      let _flowRates := generateFlowRange targetFlowRate
      let flowRateCount := 20
      .ok ((List.range flowRateCount).map (rowAt log10 pi sections))

/-- One iteration of the `Pipeline.execute` loop in state-threaded form. -/
def curveLoopStep (log10 : ℚ → ℚ) (pi : ℚ)
    (acc : List (ℚ × ℚ) × List PipeSection) (i : ℕ) :
    List (ℚ × ℚ) × List PipeSection :=
  (acc.1 ++ [rowAt log10 pi acc.2 i], acc.2)

/-- State-threaded form of `Pipeline.execute`, built like `System.calcTDHOp`:
the owned section list flows through every loop iteration and out again,
mirroring the absence of any assignment to `this.pipeSections`. -/
def executeOp (log10 : ℚ → ℚ) (pi : ℚ) (st : List PipeSection)
    (targetFlowRate : ℚ) (approximationMethod : ApproximationMethod)
    (isImperial : Bool) : Except Err (List (ℚ × ℚ)) × List PipeSection :=
  match st with
  | [] => (.error .emptyPipeline, st)
  | _ :: _ =>
    match approximationMethod with
    | .COLEBROOK => (.error .unsupportedMethod, st)
    | .SERGHIDE =>
      let _flowRates := generateFlowRange targetFlowRate
      let _ := isImperial
      let result := (List.range 20).foldl (curveLoopStep log10 pi) ([], st)
      (.ok result.1, result.2)

/-- `Pipeline.removePipeSection`: same body as `System.removePipeSection`. -/
def removePipeSection (index : ℤ) (st : List PipeSection) :
    Except Err Unit × List PipeSection :=
  if index < 0 ∨ (st.length : ℤ) ≤ index then (.error .indexOutOfRange, st)
  else (.ok (), st.eraseIdx index.toNat)

/-- `Pipeline.modifyPipeSection`: same body as `System.modifyPipeSection`. -/
def modifyPipeSection (index : ℤ) (newParams : PipeSection)
    (st : List PipeSection) : Except Err Unit × List PipeSection :=
  if index < 0 ∨ (st.length : ℤ) ≤ index then (.error .indexOutOfRange, st)
  else
    match PipeSection.construct newParams with
    | .error e => (.error e, st)
    | .ok s => (.ok (), st.set index.toNat s)

end Pipeline

/-- A degenerate stand-in for `log10` (claims never depend on its values). -/
def logZero : ℚ → ℚ := fun _ => 0

/-- A rational stand-in for `math.pi` in concrete evaluations. -/
def piApprox : ℚ := 355 / 113

/-- Concrete valid banded section: zero boundary state, `length = 1`,
`diameter = 1`, smooth wall, `kinematicViscOfFluid = 1`,
`targetFlowRate = 10`, one `K = 0` appurtenance. -/
def secA : PipeSection :=
  ⟨0, 0, 0, 0, 0, 0, 0, 0, 1, 1, 0, 1, 10, [0]⟩

/-- Like `secA` but with `targetFlowRate = 20`. -/
def secB : PipeSection :=
  ⟨0, 0, 0, 0, 0, 0, 0, 0, 1, 1, 0, 1, 20, [0]⟩

/-- Like `secA` but with `diameter = 0`. -/
def secDiaZero : PipeSection :=
  ⟨0, 0, 0, 0, 0, 0, 0, 0, 1, 0, 0, 1, 10, [0]⟩

/-- Concrete valid Bernoullis-variant section: `length = 2`, `diameter = 2`,
`absoluteRoughness = 1`, `kinematicViscosity = 1`, one `K = 1` value. -/
def bpC1 : PipeSectionB :=
  ⟨0, 0, 0, 0, 1, 0, 0, 2, 2, 1, 1, [1]⟩

/-- Bernoullis-variant constructor input with `diameter = 0` and an empty
`kValues` list. -/
def bpZero : PipeSectionB :=
  ⟨0, 0, 0, 0, 1, 0, 0, 1, 0, 1, 1, []⟩

/-- The banded flow-rate range always has 20 samples. -/
theorem PipeSection.generateFlowRange_length (targetFlowRate : ℚ) :
    (PipeSection.generateFlowRange targetFlowRate).length = 20 := by
  rfl

/-- The banded section curve always has 20 rows. -/
theorem PipeSection.execute_length (log10 : ℚ → ℚ) (pi : ℚ) (s : PipeSection) :
    (PipeSection.execute log10 pi s).length = 20 := by
  rfl

/-- C3: for every positive relative roughness and Reynolds number with
`0 < Re < 2300`, both friction-factor computations (the
`SerghidesApproximation` strategy of `part_000` and the banded
`PipeSection.calculateFrictionFactor`) return exactly `64 / Re`; the result
does not depend on the logarithm at all (quantified over `log10`), i.e. the
Serghide turbulent approximation is never evaluated. -/
theorem C3_laminar_friction_factor (log10 : ℚ → ℚ)
    (relativeRoughness reynoldsNum pi : ℚ) (s : PipeSection) (flowRate : ℚ)
    (hrr : 0 < relativeRoughness) (hpos : 0 < reynoldsNum)
    (hlam : reynoldsNum < 2300)
    (hlam2 : PipeSection.reynoldsNumber pi s flowRate < 2300) :
    SerghidesApproximation.calculateFrictionFactor log10 relativeRoughness
        reynoldsNum = 64 / reynoldsNum
    ∧ (∀ log10Alt : ℚ → ℚ,
        SerghidesApproximation.calculateFrictionFactor log10Alt
            relativeRoughness reynoldsNum
          = SerghidesApproximation.calculateFrictionFactor log10
            relativeRoughness reynoldsNum)
    ∧ PipeSection.calculateFrictionFactor log10 pi s flowRate
      = 64 / PipeSection.reynoldsNumber pi s flowRate := by
  refine ⟨?_, fun log10Alt => ?_, ?_⟩ <;>
    simp [SerghidesApproximation.calculateFrictionFactor,
      PipeSection.calculateFrictionFactor, hlam, hlam2]

/-- C3 witness: concrete laminar inputs. -/
theorem C3_laminar_friction_factor_witness :
    SerghidesApproximation.calculateFrictionFactor logZero (1 / 100) 1000
        = 64 / 1000
    ∧ PipeSection.calculateFrictionFactor logZero 4 secA 1
        = 64 / PipeSection.reynoldsNumber 4 secA 1 := by
  have h := C3_laminar_friction_factor logZero (1 / 100) 1000 4 secA 1
    (by norm_num) (by norm_num) (by norm_num)
    (by norm_num [PipeSection.reynoldsNumber, PipeSection.hydraulicArea,
      secA, max_lt_iff])
  exact ⟨h.1, h.2.2⟩

/-- C4: the pressure-head contribution to the total dynamic head is
`(finalPressure - initialPressure) * 2.31` for the imperial unit system and
`* 10.2` for the metric one in the Bernoullis decomposition, and
`(p2 - p1) * 2.31` (the imperial factor; that path takes no unit system) in
the banded `calculateTDH`, for both the max-TDH and min-TDH components. -/
theorem C4_pressure_head (isImperial : Bool) (ps : PipeSectionB)
    (log10 : ℚ → ℚ) (pi flowRate relativeRoughness : ℚ) (s : PipeSection)
    (Q : ℚ) :
    Bernoullis.calculateTDH log10 pi isImperial ps flowRate relativeRoughness
      = Bernoullis.calculateStaticHead ps
        + (ps.finalPressure - ps.initialPressure)
          * (if isImperial then (2.31 : ℚ) else 10.2)
        + Bernoullis.calculateVelocityHead isImperial ps
        + Bernoullis.calculateMajorLosses log10 pi isImperial ps flowRate
            relativeRoughness
        + Bernoullis.calculateMinorLosses pi ps flowRate isImperial
    ∧ (PipeSection.calculateTDH log10 pi s Q).1
      = (s.z2_max - s.z1_min)
        + (PipeSection.calculateMajorLosses log10 pi s (max Q (1e-6 : ℚ))
          + PipeSection.calculateMinorLosses pi s (max Q (1e-6 : ℚ))
          + PipeSection.velocityHead pi s (max Q (1e-6 : ℚ))
          + (s.p2 - s.p1) * 2.31)
    ∧ (PipeSection.calculateTDH log10 pi s Q).2
      = (s.z2_min - s.z1_max)
        + (PipeSection.calculateMajorLosses log10 pi s (max Q (1e-6 : ℚ))
          + PipeSection.calculateMinorLosses pi s (max Q (1e-6 : ℚ))
          + PipeSection.velocityHead pi s (max Q (1e-6 : ℚ))
          + (s.p2 - s.p1) * 2.31) := by
  cases isImperial <;>
    simp [Bernoullis.calculateTDH, Bernoullis.calculatePressureHead,
      PipeSection.calculateTDH, PipeSection.pressureHead]

/-- C5 counterexample: the `part_001` constructor accepts `diameter = 0`
together with an empty K-value list and produces a `PipeSection` (its guard
is the strict `diameter < 0` and it never inspects `kValues`). -/
theorem C5_counterexample :
    bpZero.diameter = 0 ∧ bpZero.kValues = []
      ∧ PipeSectionB.construct bpZero = .ok bpZero :=
  ⟨rfl, rfl, rfl⟩

/-- C5 (amended): the banded `PipeSection` constructor rejects
`diameter = 0`, `length = 0`, an empty K-value sequence, and a crossing
elevation band with a `ValidationError`; the `part_001` variant constructor
does not (see the counterexample). -/
theorem C5_banded_validation (s : PipeSection)
    (h : s.diameter = 0 ∨ s.length = 0 ∨ s.appurtenanceKValues = []
      ∨ s.z2_max < s.z1_min ∨ s.z2_min < s.z1_max) :
    PipeSection.construct s = .error .validation := by
  unfold PipeSection.construct
  rcases h with h | h | h | h | h <;> split_ifs <;> simp_all

/-- C5 witness: `diameter = 0` is rejected by the banded constructor. -/
theorem C5_banded_validation_witness :
    PipeSection.construct secDiaZero = .error .validation :=
  C5_banded_validation secDiaZero (Or.inl rfl)

/-- C6 counterexample: with the `COLEBROOK` method and an *empty* pipeline,
`Pipeline.execute` raises `EmptyPipelineError` (its emptiness guard runs
before method dispatch), not `UnsupportedMethodError`. -/
theorem C6_counterexample :
    Pipeline.execute logZero piApprox [] 1 .COLEBROOK true
        = .error .emptyPipeline
    ∧ Pipeline.execute logZero piApprox [] 1 .COLEBROOK true
        ≠ .error .unsupportedMethod :=
  ⟨rfl, fun h => Except.noConfusion h fun he => Err.noConfusion he⟩

/-- C6 (amended): for every *non-empty* pipeline, every target flow rate and
unit system, requesting the `COLEBROOK` method raises
`UnsupportedMethodError` and never returns a numeric system curve; no
default strategy is substituted. -/
theorem C6_colebrook_unsupported (log10 : ℚ → ℚ) (pi : ℚ)
    (sections : List PipeSection) (targetFlowRate : ℚ) (isImperial : Bool)
    (h : sections ≠ []) :
    Pipeline.execute log10 pi sections targetFlowRate .COLEBROOK isImperial
      = .error .unsupportedMethod := by
  cases sections with
  | nil => exact absurd rfl h
  | cons s rest => rfl

/-- C6 witness: a one-section pipeline. -/
theorem C6_colebrook_unsupported_witness :
    Pipeline.execute logZero piApprox [secA] 1 .COLEBROOK true
      = .error .unsupportedMethod :=
  C6_colebrook_unsupported logZero piApprox [secA] 1 true
    (List.cons_ne_nil secA [])

/-- C10: `removePipeSection` and `modifyPipeSection` of both `System` and
`Pipeline` raise `IndexOutOfRangeError` for every out-of-range index
(`index < 0` or `index ≥ length`) and leave the section list exactly as it
was. -/
theorem C10_index_guard (index : ℤ) (st : List PipeSection)
    (newParams : PipeSection)
    (h : index < 0 ∨ (st.length : ℤ) ≤ index) :
    System.removePipeSection index st = (.error .indexOutOfRange, st)
    ∧ System.modifyPipeSection index newParams st
        = (.error .indexOutOfRange, st)
    ∧ Pipeline.removePipeSection index st = (.error .indexOutOfRange, st)
    ∧ Pipeline.modifyPipeSection index newParams st
        = (.error .indexOutOfRange, st) := by
  refine ⟨?_, ?_, ?_, ?_⟩ <;>
    simp [System.removePipeSection, System.modifyPipeSection,
      Pipeline.removePipeSection, Pipeline.modifyPipeSection, h]

/-- C10 witness: index `-1` on a one-section list. -/
theorem C10_index_guard_witness :
    System.removePipeSection (-1) [secA] = (.error .indexOutOfRange, [secA])
    ∧ System.modifyPipeSection (-1) secA [secA]
        = (.error .indexOutOfRange, [secA])
    ∧ Pipeline.removePipeSection (-1) [secA]
        = (.error .indexOutOfRange, [secA])
    ∧ Pipeline.modifyPipeSection (-1) secA [secA]
        = (.error .indexOutOfRange, [secA]) :=
  C10_index_guard (-1) [secA] secA (Or.inl (by norm_num))

/-- Index formula for the banded flow-rate range. -/
theorem PipeSection.generateFlowRange_getD (t : ℚ) (i : ℕ) (hi : i < 20) :
    (PipeSection.generateFlowRange t).getD i 0 = t / 20 * ((i : ℚ) + 1) := by
  unfold PipeSection.generateFlowRange
  rw [List.getD_eq_getElem _ _ (by simpa using hi)]
  simp

/-- Index formula for the pipeline-level flow-rate range. -/
theorem Pipeline.flowRangeTenth_getD (t : ℚ) (i : ℕ) (hi : i < 20) :
    (Pipeline.generateFlowRange t).getD i 0 = t / 10 * (i : ℚ) := by
  unfold Pipeline.generateFlowRange
  rw [List.getD_eq_getElem _ _ (by simpa using hi)]
  simp

/-- The last sample of the banded flow-rate range is the target flow rate. -/
theorem PipeSection.generateFlowRange_getLast (t : ℚ) :
    (PipeSection.generateFlowRange t).getLast? = some t := by
  unfold PipeSection.generateFlowRange
  rw [List.getLast?_eq_getElem?]
  simp
  norm_num

/-- The last sample of the pipeline-level flow-rate range is `1.9` times the
target flow rate. -/
theorem Pipeline.flowRangeTenth_getLast (t : ℚ) :
    (Pipeline.generateFlowRange t).getLast? = some (t / 10 * 19) := by
  unfold Pipeline.generateFlowRange
  rw [List.getLast?_eq_getElem?]
  simp

/-- The banded flow-rate range is strictly increasing for a positive target. -/
theorem PipeSection.generateFlowRange_pairwise (t : ℚ) (ht : 0 < t) :
    (PipeSection.generateFlowRange t).Pairwise (· < ·) := by
  unfold PipeSection.generateFlowRange
  rw [List.pairwise_map]
  refine (List.pairwise_lt_range 20).imp ?_
  intro a b hab
  have hstep : 0 < t / 20 := by positivity
  have hcast : ((a : ℚ) + 1) < ((b : ℚ) + 1) :=
    add_lt_add_right (by exact_mod_cast hab) 1
  exact mul_lt_mul_of_pos_left hcast hstep

/-- C2 counterexample: at target flow rate `10`, the `Pipeline.ts` flow-range
generator violates the canonical policy: its sample at index 0 is `0`, not
`(10/20)·1`, and its last sample is `19`, not the target `10`. -/
theorem C2_counterexample :
    (0 : ℚ) < 10
    ∧ (Pipeline.generateFlowRange 10).getD 0 0 ≠ 10 / 20 * (((0 : ℕ) : ℚ) + 1)
    ∧ (Pipeline.generateFlowRange 10).getLast? ≠ some 10 := by
  refine ⟨by norm_num, ?_, ?_⟩
  · rw [Pipeline.flowRangeTenth_getD 10 0 (by norm_num)]
    norm_num
  · rw [Pipeline.flowRangeTenth_getLast 10]
    simp only [ne_eq, Option.some.injEq]
    norm_num

/-- C2 (amended): for every positive target flow rate, the *banded*
`PipeSection.generateFlowRange` has exactly 20 samples, is strictly
increasing, satisfies `flowRate[i] = (target/20)·(i+1)`, and ends at the
target; the `Pipeline.ts` generator instead has 20 samples
`flowRate[i] = (target/10)·i`, starting at `0` and ending at `1.9·target`. -/
theorem C2_flow_range (t : ℚ) (i : ℕ) (ht : 0 < t) (hi : i < 20) :
    (PipeSection.generateFlowRange t).length = 20
    ∧ (PipeSection.generateFlowRange t).Pairwise (· < ·)
    ∧ (PipeSection.generateFlowRange t).getD i 0 = t / 20 * ((i : ℚ) + 1)
    ∧ (PipeSection.generateFlowRange t).getLast? = some t
    ∧ (Pipeline.generateFlowRange t).length = 20
    ∧ (Pipeline.generateFlowRange t).getD i 0 = t / 10 * (i : ℚ)
    ∧ (Pipeline.generateFlowRange t).getD 0 0 = 0
    ∧ (Pipeline.generateFlowRange t).getLast? = some (t / 10 * 19) :=
  ⟨PipeSection.generateFlowRange_length t,
   PipeSection.generateFlowRange_pairwise t ht,
   PipeSection.generateFlowRange_getD t i hi,
   PipeSection.generateFlowRange_getLast t,
   rfl,
   Pipeline.flowRangeTenth_getD t i hi,
   by rw [Pipeline.flowRangeTenth_getD t 0 (by norm_num)]; norm_num,
   Pipeline.flowRangeTenth_getLast t⟩

/-- C2 witness: target flow rate `10`, index `7`. -/
theorem C2_flow_range_witness :
    (PipeSection.generateFlowRange 10).length = 20
    ∧ (PipeSection.generateFlowRange 10).Pairwise (· < ·)
    ∧ (PipeSection.generateFlowRange 10).getD 7 0 = 10 / 20 * (((7 : ℕ) : ℚ) + 1)
    ∧ (PipeSection.generateFlowRange 10).getLast? = some 10
    ∧ (Pipeline.generateFlowRange 10).length = 20
    ∧ (Pipeline.generateFlowRange 10).getD 7 0 = 10 / 10 * ((7 : ℕ) : ℚ)
    ∧ (Pipeline.generateFlowRange 10).getD 0 0 = 0
    ∧ (Pipeline.generateFlowRange 10).getLast? = some (10 / 10 * 19) :=
  C2_flow_range 10 7 (by norm_num) (by norm_num)

/-- The `System.calcTDH` loop body writes only the result accumulator: the
state component survives any run of iterations unchanged. -/
theorem System.calcLoop_state_const (log10 : ℚ → ℚ) (pi : ℚ)
    (l : List ℕ) (a : List (ℚ × ℚ × ℚ)) (b : List PipeSection) :
    (l.foldl (System.curveLoopStep log10 pi) (a, b)).2 = b := by
  induction l generalizing a with
  | nil => rfl
  | cons x xs ih => exact ih (a ++ [System.calcRow log10 pi b x])

/-- The `Pipeline.execute` loop body writes only the result accumulator. -/
theorem Pipeline.executeLoop_state_const (log10 : ℚ → ℚ) (pi : ℚ)
    (l : List ℕ) (a : List (ℚ × ℚ)) (b : List PipeSection) :
    (l.foldl (Pipeline.curveLoopStep log10 pi) (a, b)).2 = b := by
  induction l generalizing a with
  | nil => rfl
  | cons x xs ih => exact ih (a ++ [Pipeline.rowAt log10 pi b x])

/-- C9: evaluating the system curve (`System.calcTDH` or `Pipeline.execute`)
leaves the pipeline's section list unchanged — the state-threaded semantics
of both methods return the input section list (same sections, same order,
same parameter values) alongside the curve. -/
theorem C9_evaluation_frame (log10 : ℚ → ℚ) (pi : ℚ) (st : List PipeSection)
    (targetFlowRate : ℚ) (m : ApproximationMethod) (isImperial : Bool) :
    (System.calcTDHOp log10 pi st).2 = st
    ∧ (Pipeline.executeOp log10 pi st targetFlowRate m isImperial).2 = st := by
  constructor
  · cases st with
    | nil => rfl
    | cons s0 rest =>
      simp only [System.calcTDHOp]
      exact System.calcLoop_state_const log10 pi _ _ _
  · cases st with
    | nil => rfl
    | cons s0 rest =>
      cases m with
      | COLEBROOK => rfl
      | SERGHIDE =>
        simp only [Pipeline.executeOp]
        exact Pipeline.executeLoop_state_const log10 pi _ _ _

/-- The max-TDH accumulator of the section loop is the sum of the sections'
max-TDH entries, shifted by the initial accumulator. -/
theorem System.foldl_sectionStep_fst (log10 : ℚ → ℚ) (pi : ℚ) (i : ℕ)
    (l : List PipeSection) (acc : ℚ × ℚ × ℚ) :
    (l.foldl (System.sectionStep log10 pi i) acc).1
      = acc.1 + (l.map fun sec =>
          ((PipeSection.execute log10 pi sec).getD i (0, 0, 0)).1).sum := by
  induction l generalizing acc with
  | nil => simp
  | cons x xs ih =>
    rw [List.foldl_cons, ih]
    simp only [System.sectionStep, List.map_cons, List.sum_cons]
    ring

/-- Likewise for the min-TDH accumulator. -/
theorem System.foldl_sectionStep_snd (log10 : ℚ → ℚ) (pi : ℚ) (i : ℕ)
    (l : List PipeSection) (acc : ℚ × ℚ × ℚ) :
    (l.foldl (System.sectionStep log10 pi i) acc).2.1
      = acc.2.1 + (l.map fun sec =>
          ((PipeSection.execute log10 pi sec).getD i (0, 0, 0)).2.1).sum := by
  induction l generalizing acc with
  | nil => simp
  | cons x xs ih =>
    rw [List.foldl_cons, ih]
    simp only [System.sectionStep, List.map_cons, List.sum_cons]
    ring

/-- `calcRow`'s summed max-TDH column as a `List.sum`. -/
theorem System.calcRow_max (log10 : ℚ → ℚ) (pi : ℚ)
    (l : List PipeSection) (i : ℕ) :
    (System.calcRow log10 pi l i).1
      = (l.map fun sec =>
          ((PipeSection.execute log10 pi sec).getD i (0, 0, 0)).1).sum := by
  rw [System.calcRow, System.foldl_sectionStep_fst]
  ring

/-- `calcRow`'s summed min-TDH column as a `List.sum`. -/
theorem System.calcRow_min (log10 : ℚ → ℚ) (pi : ℚ)
    (l : List PipeSection) (i : ℕ) :
    (System.calcRow log10 pi l i).2.1
      = (l.map fun sec =>
          ((PipeSection.execute log10 pi sec).getD i (0, 0, 0)).2.1).sum := by
  rw [System.calcRow, System.foldl_sectionStep_snd]
  ring

/-- Head of a mapped 20-element range. -/
theorem range20_map_getD_zero {α : Type} (g : ℕ → α) (d : α) :
    ((List.range 20).map g).getD 0 d = g 0 := rfl

/-- In a two-section pipeline the carried flow-rate column comes from the
*second* (last) section. -/
theorem System.calcRow_pair_flow (log10 : ℚ → ℚ) (pi : ℚ)
    (x y : PipeSection) (i : ℕ) :
    (System.calcRow log10 pi [x, y] i).2.2
      = ((PipeSection.execute log10 pi y).getD i (0, 0, 0)).2.2 := rfl

/-- The flow-rate component of a section's curve row is the corresponding
generated sample. -/
theorem PipeSection.execute_getD_flow (log10 : ℚ → ℚ) (pi : ℚ)
    (s : PipeSection) (i : ℕ) (hi : i < 20) :
    ((PipeSection.execute log10 pi s).getD i (0, 0, 0)).2.2
      = s.targetFlowRate / 20 * ((i : ℚ) + 1) := by
  unfold PipeSection.execute PipeSection.generateFlowRange
  rw [List.getD_eq_getElem _ _ (by simpa using hi)]
  simp

/-- C7 counterexample: two valid sections that differ only in
`targetFlowRate` (`10` vs `20`).  Swapping their order changes the system
curve, because the flow-rate column is taken from the *last* section and the
two sections generate different flow-rate samples. -/
theorem C7_counterexample :
    System.calcTDH logZero 4 [secA, secB]
      ≠ System.calcTDH logZero 4 [secB, secA] := by
  intro h
  have h0 := congrArg
    (fun e => Except.map
      (fun curve => (curve.getD 0 ((0 : ℚ), (0 : ℚ), (0 : ℚ))).2.2) e) h
  simp only [System.calcTDH, Except.map, PipeSection.execute_length,
    range20_map_getD_zero, System.calcRow_pair_flow, Except.ok.injEq] at h0
  rw [PipeSection.execute_getD_flow logZero 4 secB 0 (by norm_num),
    PipeSection.execute_getD_flow logZero 4 secA 0 (by norm_num)] at h0
  norm_num [secA, secB] at h0

/-- C7 (amended): permuting the section list leaves the summed `maxTDH` and
`minTDH` columns of `System.calcTDH` unchanged at every index (addition is
commutative), and an empty pipeline errors either way; only the carried
flow-rate column (the last section's samples) may change. -/
theorem C7_perm_invariant (log10 : ℚ → ℚ) (pi : ℚ)
    (l l' : List PipeSection) (hp : l.Perm l') :
    (System.calcTDH log10 pi l).map
        (fun curve => curve.map fun r => (r.1, r.2.1))
      = (System.calcTDH log10 pi l').map
        (fun curve => curve.map fun r => (r.1, r.2.1)) := by
  cases l with
  | nil =>
    cases l' with
    | nil => rfl
    | cons y ys => exact absurd hp.nil_eq (by simp)
  | cons x xs =>
    cases l' with
    | nil => exact absurd hp.eq_nil (by simp)
    | cons y ys =>
      simp only [System.calcTDH, Except.map, PipeSection.execute_length]
      congr 1
      rw [List.map_map, List.map_map]
      refine List.map_congr_left fun i _ => ?_
      have h1 : (System.calcRow log10 pi (x :: xs) i).1
          = (System.calcRow log10 pi (y :: ys) i).1 := by
        rw [System.calcRow_max, System.calcRow_max]
        exact (hp.map _).sum_eq
      have h2 : (System.calcRow log10 pi (x :: xs) i).2.1
          = (System.calcRow log10 pi (y :: ys) i).2.1 := by
        rw [System.calcRow_min, System.calcRow_min]
        exact (hp.map _).sum_eq
      simp only [Function.comp_apply]
      rw [h1, h2]

/-- C7 witness: swapping the two concrete sections. -/
theorem C7_perm_invariant_witness :
    (System.calcTDH logZero 4 [secA, secB]).map
        (fun curve => curve.map fun r => (r.1, r.2.1))
      = (System.calcTDH logZero 4 [secB, secA]).map
        (fun curve => curve.map fun r => (r.1, r.2.1)) :=
  C7_perm_invariant logZero 4 [secA, secB] [secB, secA]
    (List.Perm.swap secB secA [])

/-- C8: for every validly constructed banded `PipeSection`, every row of its
20-point curve satisfies `maxTDH - minTDH = (z2_max - z1_min) - (z2_min -
z1_max)`: the two TDH components share all loss terms, so their difference
is this flow-rate-independent constant. -/
theorem C8_band_offset (log10 : ℚ → ℚ) (pi : ℚ) (s : PipeSection)
    (hs : PipeSection.construct s = .ok s) (row : ℚ × ℚ × ℚ)
    (hrow : row ∈ PipeSection.execute log10 pi s) :
    row.1 - row.2.1 = (s.z2_max - s.z1_min) - (s.z2_min - s.z1_max) := by
  unfold PipeSection.execute at hrow
  rw [List.mem_map] at hrow
  obtain ⟨q, hq, rfl⟩ := hrow
  simp only [PipeSection.calculateTDH]
  ring

/-- C8 witness: the first row of the curve of the concrete section `secA`. -/
theorem C8_band_offset_witness :
    ((PipeSection.execute logZero 4 secA).getD 0 ((0 : ℚ), (0 : ℚ), (0 : ℚ))).1
        - ((PipeSection.execute logZero 4 secA).getD 0
            ((0 : ℚ), (0 : ℚ), (0 : ℚ))).2.1
      = (secA.z2_max - secA.z1_min) - (secA.z2_min - secA.z1_max) := by
  apply C8_band_offset logZero 4 secA rfl
  rw [List.getD_eq_getElem _ _ (by rw [PipeSection.execute_length]; norm_num)]
  exact List.getElem_mem _

/-- C1 counterexample: a valid Bernoullis-variant section (`diameter = 2`,
`length = 2`, roughness `1`, viscosity `1`) evaluated at `Q = 1` in the
imperial system with `pi = 355/113`.  The flow is laminar (`Re = 226/355`),
so the friction factor is exact, yet `Bernoullis.calculateMajorLosses`
differs from the claimed `f · (L/D) · Q² / (2·g·hydraulicArea²)`: the code
divides by `(2·g·π·D²)/4 = 2·g·hydraulicArea`, i.e. the hydraulic area enters
to the first power, not squared. -/
theorem C1_counterexample :
    PipeSectionB.construct bpC1 = .ok bpC1
    ∧ Bernoullis.calculateMajorLosses logZero (355 / 113) true bpC1 1 (1 / 2)
      ≠ SerghidesApproximation.calculateFrictionFactor logZero (1 / 2)
          (max (1 / ((355 / 113) * bpC1.diameter ^ 2 / 4)
              * (bpC1.diameter / bpC1.kinematicViscosity)) (1e-6 : ℚ))
        * (bpC1.length / bpC1.diameter) * (1 : ℚ) ^ 2
        / (2 * 32.17 * ((355 / 113) * bpC1.diameter ^ 2 / 4) ^ 2) := by
  have hre : Bernoullis.calculateReynoldsNumber (355 / 113) bpC1 1
      = 226 / 355 := by
    simp only [Bernoullis.calculateReynoldsNumber, bpC1]
    rw [max_eq_left (by norm_num)]
    norm_num
  have harg : max ((1 : ℚ) / ((355 / 113) * bpC1.diameter ^ 2 / 4)
      * (bpC1.diameter / bpC1.kinematicViscosity)) (1e-6 : ℚ)
      = 226 / 355 := by
    simp only [bpC1]
    rw [max_eq_left (by norm_num)]
    norm_num
  have hf : SerghidesApproximation.calculateFrictionFactor logZero (1 / 2)
      (226 / 355) = 11360 / 113 := by
    unfold SerghidesApproximation.calculateFrictionFactor
    rw [if_pos (by norm_num)]
    norm_num
  refine ⟨rfl, ?_⟩
  simp only [Bernoullis.calculateMajorLosses]
  rw [hre, harg, hf]
  simp only [bpC1]
  norm_num

/-- C1 (amended): the major-loss formulas the code actually computes.  In the
Bernoullis path the head loss is `f · (length/diameter) · Q² /
((2·g·π·diameter²)/4)` — the denominator carries the hydraulic area
`π·diameter²/4` to the *first* power — with `g = 32.17` imperial and `9.81`
SI, and `f` taken at `Re = max((Q/hydraulicArea)·(diameter/viscosity),
1e-6)`.  In the banded `PipeSection` path the head loss is
`f · (length/diameter) · Q² / (2·32.17·hydraulicArea²)` — the claim's squared
form, but with the imperial gravity constant regardless of unit system. -/
theorem C1_major_losses (log10 : ℚ → ℚ) (pi : ℚ) (isImperial : Bool)
    (bp : PipeSectionB) (s : PipeSection) (Q flowRate rr : ℚ)
    (hb : PipeSectionB.construct bp = .ok bp)
    (hs : PipeSection.construct s = .ok s) :
    Bernoullis.calculateMajorLosses log10 pi isImperial bp Q rr
      = SerghidesApproximation.calculateFrictionFactor log10 rr
          (max (Q / (pi * bp.diameter ^ 2 / 4)
              * (bp.diameter / bp.kinematicViscosity)) (1e-6 : ℚ))
        * (bp.length / bp.diameter) * Q ^ 2
        / (2 * (if isImperial then (32.17 : ℚ) else 9.81)
          * (pi * bp.diameter ^ 2 / 4))
    ∧ PipeSection.calculateMajorLosses log10 pi s flowRate
      = PipeSection.calculateFrictionFactor log10 pi s flowRate
        * (s.length / s.diameter) * flowRate ^ 2
        / (2 * 32.17 * (pi * s.diameter ^ 2 / 4) ^ 2) := by
  constructor
  · have hinner : Q / (pi * bp.diameter ^ 2 / 4) * bp.diameter
        / bp.kinematicViscosity
        = Q / (pi * bp.diameter ^ 2 / 4)
          * (bp.diameter / bp.kinematicViscosity) := by
      ring
    have harg : Bernoullis.calculateReynoldsNumber pi bp Q
        = max (Q / (pi * bp.diameter ^ 2 / 4)
            * (bp.diameter / bp.kinematicViscosity)) (1e-6 : ℚ) := by
      simp only [Bernoullis.calculateReynoldsNumber]
      rw [hinner]
    have hg : (if !isImperial then (9.81 : ℚ) else 32.17)
        = if isImperial then (32.17 : ℚ) else 9.81 := by
      cases isImperial <;> rfl
    simp only [Bernoullis.calculateMajorLosses]
    rw [harg, hg]
    ring
  · rfl

/-- C1 witness: the amended formulas at the concrete sections `bpC1` and
`secA`, `Q = 1`, imperial units, `pi = 355/113`. -/
theorem C1_major_losses_witness :
    Bernoullis.calculateMajorLosses logZero (355 / 113) true bpC1 1 (1 / 2)
      = SerghidesApproximation.calculateFrictionFactor logZero (1 / 2)
          (max (1 / ((355 / 113) * bpC1.diameter ^ 2 / 4)
              * (bpC1.diameter / bpC1.kinematicViscosity)) (1e-6 : ℚ))
        * (bpC1.length / bpC1.diameter) * (1 : ℚ) ^ 2
        / (2 * (if true then (32.17 : ℚ) else 9.81)
          * ((355 / 113) * bpC1.diameter ^ 2 / 4))
    ∧ PipeSection.calculateMajorLosses logZero (355 / 113) secA 1
      = PipeSection.calculateFrictionFactor logZero (355 / 113) secA 1
        * (secA.length / secA.diameter) * (1 : ℚ) ^ 2
        / (2 * 32.17 * ((355 / 113) * secA.diameter ^ 2 / 4) ^ 2) :=
  C1_major_losses logZero (355 / 113) true bpC1 secA 1 1 (1 / 2) rfl rfl
